import Mathlib

/-!
Shallow embedding of the zkontrol secure-communications server:
the relational store (`server/storage.js` / `shared/schema.js`), the
in-memory nonce store and HTTP auth handlers, and the socket event
handlers of `server.js`.  Machine timestamps are modelled as `Nat`
milliseconds (JavaScript `Date.now()`).
-/

namespace ZKontrol

/-- Row of the `users` table: serial id, display name, unique wallet address. -/
structure User where
  id : Nat
  username : String
  walletAddress : String
  deriving Repr, DecidableEq

/-- Row of the `rooms` table. -/
structure Room where
  id : Nat
  name : String
  isGroup : Bool
  isPublic : Bool
  createdBy : Option Nat
  deriving Repr, DecidableEq

/-- Row of the `room_members` table: a (room, user) membership pair. -/
structure RoomMember where
  roomId : Nat
  userId : Nat
  deriving Repr, DecidableEq

/-- Row of the `messages` table; `expiresAt` is the nullable expiry timestamp. -/
structure Message where
  id : Nat
  roomId : Nat
  userId : Nat
  content : String
  createdAt : Nat
  expiresAt : Option Nat
  deriving Repr, DecidableEq

/-- Row of the `reactions` table: a (message, user, emoji) triple with serial id. -/
structure Reaction where
  id : Nat
  messageId : Nat
  userId : Nat
  emoji : String
  deriving Repr, DecidableEq

/-- The relational store: the five tables plus the next value of each serial
primary-key sequence. -/
structure Store where
  users : List User
  rooms : List Room
  roomMembers : List RoomMember
  messages : List Message
  reactions : List Reaction
  nextUserId : Nat
  nextRoomId : Nat
  nextMessageId : Nat
  nextReactionId : Nat
  deriving Repr, DecidableEq

/-- DatabaseStorage.getUser: select the user with the given id. -/
def getUser (s : Store) (id : Nat) : Option User :=
  s.users.find? (fun u => u.id == id)

/-- DatabaseStorage.getUserByWallet: select the user with the given wallet address. -/
def getUserByWallet (s : Store) (walletAddress : String) : Option User :=
  s.users.find? (fun u => u.walletAddress == walletAddress)

/-- DatabaseStorage.createUser: insert a user row, drawing the serial id. -/
def createUser (s : Store) (walletAddress username : String) : Store × User :=
  let u : User := ⟨s.nextUserId, username, walletAddress⟩
  ({ s with users := s.users ++ [u], nextUserId := s.nextUserId + 1 }, u)

/-- DatabaseStorage.getRoom: select the room with the given id. -/
def getRoom (s : Store) (id : Nat) : Option Room :=
  s.rooms.find? (fun r => r.id == id)

/-- DatabaseStorage.createRoom: insert a room row, drawing the serial id.
`isPublic` defaults to false as in the schema. -/
def createRoom (s : Store) (name : String) (isGroup isPublic : Bool)
    (createdBy : Option Nat) : Store × Room :=
  let room : Room := ⟨s.nextRoomId, name, isGroup, isPublic, createdBy⟩
  ({ s with rooms := s.rooms ++ [room], nextRoomId := s.nextRoomId + 1 }, room)

/-- DatabaseStorage.addRoomMember: insert a membership row. -/
def addRoomMember (s : Store) (roomId userId : Nat) : Store :=
  { s with roomMembers := s.roomMembers ++ [⟨roomId, userId⟩] }

/-- DatabaseStorage.isRoomMember: whether a membership row exists for the pair. -/
def isRoomMember (s : Store) (roomId userId : Nat) : Bool :=
  s.roomMembers.any (fun m => m.roomId == roomId && m.userId == userId)

/-- Inner join of a user's membership rows with the rooms table: the rooms the
user belongs to (the join underlying getUserRooms and findPrivateRoom). -/
def joinedRooms (s : Store) (userId : Nat) : List Room :=
  (s.roomMembers.filter (fun m => m.userId == userId)).flatMap
    (fun m => s.rooms.filter (fun r => r.id == m.roomId))

/-- DatabaseStorage.getUserRooms: the rooms the user is a member of. -/
def getUserRooms (s : Store) (userId : Nat) : List Room :=
  joinedRooms s userId

/-- DatabaseStorage.findPrivateRoom: among the non-group, non-public rooms
that user1 belongs to, the first of which user2 is also a member, else none. -/
def findPrivateRoom (s : Store) (userId1 userId2 : Nat) : Option Room :=
  ((joinedRooms s userId1).filter (fun r => !r.isGroup && !r.isPublic)).find?
    (fun r => isRoomMember s r.id userId2)

/-- DatabaseStorage.getRoomMembers: inner join of a room's membership rows
with the users table. -/
def getRoomMembers (s : Store) (roomId : Nat) : List User :=
  (s.roomMembers.filter (fun m => m.roomId == roomId)).flatMap
    (fun m => s.users.filter (fun u => u.id == m.userId))

/-- DatabaseStorage.createMessage: insert a message row, drawing the serial id;
`createdAt` defaults to the current time. -/
def createMessage (s : Store) (roomId userId : Nat) (content : String)
    (now : Nat) (expiresAt : Option Nat) : Store × Message :=
  let msg : Message := ⟨s.nextMessageId, roomId, userId, content, now, expiresAt⟩
  ({ s with messages := s.messages ++ [msg], nextMessageId := s.nextMessageId + 1 }, msg)

/-- Comparator of the `orderBy(desc(messages.createdAt))` clause. -/
def createdAtDesc (a b : Message) : Bool :=
  decide (b.createdAt ≤ a.createdAt)

/-- DatabaseStorage.getRoomMessages: the room's messages ordered by creation
time descending, limited (default 50), then reversed to oldest-first. -/
def getRoomMessages (s : Store) (roomId : Nat) (limit : Nat := 50) : List Message :=
  ((((s.messages.filter (fun m => m.roomId == roomId)).mergeSort
      createdAtDesc).take limit)).reverse

/-- Predicate of the expiry sweep: expiry timestamp non-null and ≤ now. -/
def isExpired (now : Nat) (m : Message) : Bool :=
  match m.expiresAt with
  | some t => decide (t ≤ now)
  | none => false

/-- DatabaseStorage.deleteExpiredMessages: delete every message whose expiry
timestamp is non-null and ≤ now; the JavaScript returns only
`result.length`, the count of deleted rows. -/
def deleteExpiredMessages (s : Store) (now : Nat) : Store × Nat :=
  let deleted := s.messages.filter (isExpired now)
  ({ s with messages := s.messages.filter (fun m => !isExpired now m) },
   deleted.length)

/-- DatabaseStorage.addReaction: return the existing row for the
(message, user, emoji) triple if there is one, else insert a fresh row. -/
def addReaction (s : Store) (messageId userId : Nat) (emoji : String) :
    Store × Reaction :=
  match s.reactions.find?
      (fun r => r.messageId == messageId && r.userId == userId && r.emoji == emoji) with
  | some existing => (s, existing)
  | none =>
    let reaction : Reaction := ⟨s.nextReactionId, messageId, userId, emoji⟩
    ({ s with reactions := s.reactions ++ [reaction],
              nextReactionId := s.nextReactionId + 1 }, reaction)

/-- DatabaseStorage.removeReaction: delete the rows matching the triple and
report whether at least one row was removed (`result.length > 0`). -/
def removeReaction (s : Store) (messageId userId : Nat) (emoji : String) :
    Store × Bool :=
  let deleted := s.reactions.filter
    (fun r => r.messageId == messageId && r.userId == userId && r.emoji == emoji)
  let kept := s.reactions.filter
    (fun r => !(r.messageId == messageId && r.userId == userId && r.emoji == emoji))
  ({ s with reactions := kept }, decide (deleted.length > 0))

/-- DatabaseStorage.getMessagesReactions: the reactions on the given messages
(inner-joined with users, so rows whose user is missing are dropped);
an empty id list short-circuits to the empty result. -/
def getMessagesReactions (s : Store) (messageIds : List Nat) : List Reaction :=
  if messageIds.isEmpty then []
  else (s.reactions.filter (fun r => messageIds.contains r.messageId)).filter
    (fun r => s.users.any (fun u => u.id == r.userId))

/-- DatabaseStorage.ensurePublicRoom: return the room with isPublic = true if
one exists, else insert the canonical public room. -/
def ensurePublicRoom (s : Store) : Store × Room :=
  match s.rooms.find? (fun r => r.isPublic) with
  | some publicRoom => (s, publicRoom)
  | none => createRoom s "Public Chat" true true none

/-- Entry of the in-memory nonce store: the random nonce, the full challenge
message, and the issuance timestamp. -/
structure NonceEntry where
  nonce : String
  message : String
  timestamp : Nat
  deriving Repr, DecidableEq

/-- The process-wide `nonceStore` map, wallet address to challenge entry. -/
def NonceStore : Type := List (String × NonceEntry)

/-- Map.get on the nonce store. -/
def nsGet (ns : NonceStore) (walletAddress : String) : Option NonceEntry :=
  (List.find? (fun p => p.1 == walletAddress) ns).map (fun p => p.2)

/-- Map.set on the nonce store: overwrite any prior entry for the key. -/
def nsSet (ns : NonceStore) (walletAddress : String) (e : NonceEntry) : NonceStore :=
  (List.filter (fun p => p.1 != walletAddress) ns) ++ [(walletAddress, e)]

/-- Map.delete on the nonce store. -/
def nsDelete (ns : NonceStore) (walletAddress : String) : NonceStore :=
  List.filter (fun p => p.1 != walletAddress) ns

/-- Challenge message built by the nonce endpoint, embedding nonce and wallet. -/
def challengeMessage (nonce walletAddress : String) : String :=
  "ZKONTROL Authentication\n\nSign this message to prove you own this wallet.\n\nNonce: "
    ++ nonce ++ "\nWallet: " ++ walletAddress

/-- Outcome of POST /api/auth/nonce. -/
inductive NonceResult where
  | missingWallet
  | invalidWallet
  | issued (message nonce : String)
  deriving Repr, DecidableEq

/-- POST /api/auth/nonce handler: validate the wallet address (the PublicKey
constructor, abstracted as `isValidKey`), generate a nonce (abstracted as the
`nonce` argument for Math.random), build the challenge message and store it
with the current timestamp. -/
def nonceHandler (isValidKey : String → Bool) (nonce : String) (now : Nat)
    (ns : NonceStore) (walletAddress : String) : NonceStore × NonceResult :=
  if walletAddress.isEmpty then (ns, .missingWallet)
  else if !isValidKey walletAddress then (ns, .invalidWallet)
  else
    let message := challengeMessage nonce walletAddress
    (nsSet ns walletAddress ⟨nonce, message, now⟩, .issued message nonce)

/-- Outcome of POST /api/auth/verify. -/
inductive VerifyResult where
  | missingFields
  | challengeNotFound
  | challengeExpired
  | invalidSignature
  | success (user : User)
  deriving Repr, DecidableEq

/-- Default display name when the request carries no username:
"User_" followed by the first 6 characters of the wallet address. -/
def defaultDisplayName (walletAddress : String) : String :=
  "User_" ++ (walletAddress.take 6)

/-- POST /api/auth/verify handler: look up the stored challenge (failing with
challengeNotFound when absent), evict and fail with challengeExpired when more
than 5 minutes have elapsed, check the signature over the stored message
(nacl.sign.detached.verify, abstracted as `verify message signature wallet`)
without evicting on failure, and on success evict the challenge and look up or
auto-provision the user. -/
def verifyHandler (verify : String → String → String → Bool) (now : Nat)
    (s : Store) (ns : NonceStore) (walletAddress signature : String)
    (username : Option String) : Store × NonceStore × VerifyResult :=
  if walletAddress.isEmpty || signature.isEmpty then (s, ns, .missingFields)
  else
    match nsGet ns walletAddress with
    | none => (s, ns, .challengeNotFound)
    | some stored =>
      if now - stored.timestamp > 5 * 60 * 1000 then
        (s, nsDelete ns walletAddress, .challengeExpired)
      else if !verify stored.message signature walletAddress then
        (s, ns, .invalidSignature)
      else
        let ns' := nsDelete ns walletAddress
        match getUserByWallet s walletAddress with
        | some user => (s, ns', .success user)
        | none =>
          let displayName := username.getD (defaultDisplayName walletAddress)
          let (s', user) := createUser s walletAddress displayName
          (s', ns', .success user)

/-- Server-to-client socket events emitted by the relay handlers. -/
inductive Event where
  | errorEvt (socketId : Nat) (message : String)
  | userNotFound (socketId : Nat) (wallet : String)
  | roomCreated (socketId : Nat) (room : Room)
  | roomJoined (socketId : Nat) (room : Room) (members : List User)
      (messages : List Message) (reactions : List Reaction)
  | userJoinedRoom (roomId : Nat) (username : String)
  | newMessage (roomId : Nat) (message : Message) (username : String)
  | userTyping (roomId : Nat) (username : String)
  | userStopTyping (roomId : Nat) (username : String)
  | reactionAdded (roomId : Nat) (reaction : Reaction) (username : String)
  | reactionRemoved (roomId : Nat) (messageId userId : Nat) (emoji : String)
  | messageDeleted (roomId : Nat) (messageId : Nat)
  deriving Repr, DecidableEq

/-- Relay state: the store plus the ephemeral socket-to-user map. -/
structure RelayState where
  store : Store
  socketToUser : List (Nat × Nat)
  deriving Repr, DecidableEq

/-- socketToUser.get: the user bound to a socket, if any. -/
def lookupSocket (m : List (Nat × Nat)) (socketId : Nat) : Option Nat :=
  (List.find? (fun p => p.1 == socketId) m).map (fun p => p.2)

/-- The join_room socket handler: unauthenticated sockets get an error; a
missing room gets an error; otherwise membership is ensured, the room history
(default message limit), members and reactions are emitted as room_joined, and
other members are notified (a missing user record makes the trailing
user-fetch throw into the catch block after room_joined was already sent). -/
def joinRoomHandler (st : RelayState) (socketId roomId : Nat) :
    RelayState × List Event :=
  match lookupSocket st.socketToUser socketId with
  | none => (st, [.errorEvt socketId "Not authenticated"])
  | some userId =>
    match getRoom st.store roomId with
    | none => (st, [.errorEvt socketId "Room not found"])
    | some room =>
      let store1 :=
        if isRoomMember st.store roomId userId then st.store
        else addRoomMember st.store roomId userId
      let msgs := getRoomMessages store1 roomId
      let members := getRoomMembers store1 roomId
      let reacts := getMessagesReactions store1 (msgs.map (fun m => m.id))
      let tailEvents :=
        match getUser store1 userId with
        | some user => [Event.userJoinedRoom roomId user.username]
        | none => [Event.errorEvt socketId "Failed to join room"]
      ({ st with store := store1 },
       Event.roomJoined socketId room members msgs reacts :: tailEvents)

/-- The send_message socket handler: unauthenticated sockets get an error;
non-members get a "Not a member of this room" error with no insert; otherwise
the message is persisted and broadcast as new_message (a missing user record
makes the user-fetch throw into the catch block after the insert). -/
def sendMessageHandler (st : RelayState) (socketId roomId : Nat)
    (content : String) (expiresAt : Option Nat) (now : Nat) :
    RelayState × List Event :=
  match lookupSocket st.socketToUser socketId with
  | none => (st, [.errorEvt socketId "Not authenticated"])
  | some userId =>
    if !isRoomMember st.store roomId userId then
      (st, [.errorEvt socketId "Not a member of this room"])
    else
      let (store1, msg) := createMessage st.store roomId userId content now expiresAt
      match getUser store1 userId with
      | some user => ({ st with store := store1 }, [.newMessage roomId msg user.username])
      | none => ({ st with store := store1 }, [.errorEvt socketId "Failed to send message"])

/-- The typing socket handler: when the socket is unbound the handler body is
skipped entirely (no error event); otherwise user_typing is broadcast (a
missing user record throws into the catch block, which only logs). -/
def typingHandler (st : RelayState) (socketId roomId : Nat) :
    RelayState × List Event :=
  match lookupSocket st.socketToUser socketId with
  | none => (st, [])
  | some userId =>
    match getUser st.store userId with
    | some user => (st, [.userTyping roomId user.username])
    | none => (st, [])

/-- The stop_typing socket handler, symmetric to typing. -/
def stopTypingHandler (st : RelayState) (socketId roomId : Nat) :
    RelayState × List Event :=
  match lookupSocket st.socketToUser socketId with
  | none => (st, [])
  | some userId =>
    match getUser st.store userId with
    | some user => (st, [.userStopTyping roomId user.username])
    | none => (st, [])

/-- The add_reaction socket handler: unauthenticated sockets get an error;
otherwise the reaction is added idempotently and broadcast (a missing user
record makes the user-fetch throw into the catch block after the insert). -/
def addReactionHandler (st : RelayState) (socketId messageId roomId : Nat)
    (emoji : String) : RelayState × List Event :=
  match lookupSocket st.socketToUser socketId with
  | none => (st, [.errorEvt socketId "Not authenticated"])
  | some userId =>
    let (store1, reaction) := addReaction st.store messageId userId emoji
    match getUser store1 userId with
    | some user =>
      ({ st with store := store1 }, [.reactionAdded roomId reaction user.username])
    | none => ({ st with store := store1 }, [.errorEvt socketId "Failed to add reaction"])

/-- The remove_reaction socket handler: unauthenticated sockets get an error;
otherwise the reaction rows for the triple are deleted and reaction_removed is
broadcast only when a row was actually removed. -/
def removeReactionHandler (st : RelayState) (socketId messageId roomId : Nat)
    (emoji : String) : RelayState × List Event :=
  match lookupSocket st.socketToUser socketId with
  | none => (st, [.errorEvt socketId "Not authenticated"])
  | some userId =>
    let (store1, removed) := removeReaction st.store messageId userId emoji
    if removed then
      ({ st with store := store1 }, [.reactionRemoved roomId messageId userId emoji])
    else
      ({ st with store := store1 }, [])

/-- The create_private_chat socket handler: unauthenticated sockets get an
error; an unknown recipient wallet yields user_not_found; an existing pairwise
room is returned as room_created with no insert; otherwise a new non-group
room is created, both users are added as members, and room_created is emitted
(a missing current-user record throws into the catch block before any insert). -/
def createPrivateChatHandler (st : RelayState) (socketId : Nat)
    (recipientWallet : String) : RelayState × List Event :=
  match lookupSocket st.socketToUser socketId with
  | none => (st, [.errorEvt socketId "Not authenticated"])
  | some userId =>
    match getUserByWallet st.store recipientWallet with
    | none => (st, [.userNotFound socketId recipientWallet])
    | some recipient =>
      match findPrivateRoom st.store userId recipient.id with
      | some existingRoom => (st, [.roomCreated socketId existingRoom])
      | none =>
        match getUser st.store userId with
        | none => (st, [.errorEvt socketId "Failed to create private chat"])
        | some currentUser =>
          let (store1, room) := createRoom st.store
            (currentUser.username ++ " & " ++ recipient.username) false false (some userId)
          let store2 := addRoomMember store1 room.id userId
          let store3 := addRoomMember store2 room.id recipient.id
          ({ st with store := store3 }, [.roomCreated socketId room])

/-- One tick of the 60-second auto-delete background job: delete the expired
messages; the JavaScript only logs the returned count and emits no socket
events on this path. -/
def sweepTick (s : Store) (now : Nat) : Store × List Event :=
  let (s', _count) := deleteExpiredMessages s now
  (s', [])

/-! Helper lemmas about the nonce store. -/

lemma nsGet_nsSet_self (ns : NonceStore) (w : String) (e : NonceEntry) :
    nsGet (nsSet ns w e) w = some e := by
  unfold nsGet nsSet
  rw [List.find?_append]
  have hnone : List.find? (fun p => p.1 == w)
      (List.filter (fun p : String × NonceEntry => p.1 != w) ns) = none := by
    rw [List.find?_eq_none]
    intro x hx
    rcases List.mem_filter.mp hx with ⟨_, hxw⟩
    simpa using bne_iff_ne.mp hxw
  rw [hnone]
  simp

lemma nsGet_nsDelete_self (ns : NonceStore) (w : String) :
    nsGet (nsDelete ns w) w = none := by
  unfold nsGet nsDelete
  have hnone : List.find? (fun p => p.1 == w)
      (List.filter (fun p : String × NonceEntry => p.1 != w) ns) = none := by
    rw [List.find?_eq_none]
    intro x hx
    rcases List.mem_filter.mp hx with ⟨_, hxw⟩
    simpa using bne_iff_ne.mp hxw
  rw [hnone]
  rfl

lemma verifyHandler_of_nsGet_none
    (verify : String → String → String → Bool) (t : Nat) (s : Store)
    (ns : NonceStore) (w sig : String) (un : Option String)
    (hw : w.isEmpty = false) (hsig : sig.isEmpty = false)
    (h : nsGet ns w = none) :
    verifyHandler verify t s ns w sig un = (s, ns, VerifyResult.challengeNotFound) := by
  unfold verifyHandler
  rw [h]
  simp [hw, hsig]

/-- C2: for every valid identity key, IssueChallenge followed by a
VerifyResponse within the TTL carrying a correct signature over the stored
challenge message succeeds (exactly once); the challenge is evicted on that
success, so any further VerifyResponse for the same wallet against the
now-consumed challenge fails with ChallengeNotFound and changes nothing. -/
theorem verify_after_nonce_single_use
    (isValidKey : String → Bool) (verify : String → String → String → Bool)
    (nonce w sig : String) (t0 t1 : Nat) (s : Store) (ns : NonceStore)
    (username : Option String)
    (hvalid : isValidKey w = true)
    (hw : w.isEmpty = false) (hsig : sig.isEmpty = false)
    (hgood : verify (challengeMessage nonce w) sig w = true)
    (hfresh : t1 - t0 ≤ 5 * 60 * 1000) :
    (∃ u, (verifyHandler verify t1 s
        (nonceHandler isValidKey nonce t0 ns w).1 w sig username).2.2 =
          VerifyResult.success u)
    ∧ nsGet (verifyHandler verify t1 s
        (nonceHandler isValidKey nonce t0 ns w).1 w sig username).2.1 w = none
    ∧ (∀ (t2 : Nat) (sig2 : String) (un2 : Option String) (s2 : Store),
        sig2.isEmpty = false →
        verifyHandler verify t2 s2
          (verifyHandler verify t1 s
            (nonceHandler isValidKey nonce t0 ns w).1 w sig username).2.1
          w sig2 un2 =
        (s2, (verifyHandler verify t1 s
            (nonceHandler isValidKey nonce t0 ns w).1 w sig username).2.1,
          VerifyResult.challengeNotFound)) := by
  have hns1 : (nonceHandler isValidKey nonce t0 ns w).1 =
      nsSet ns w ⟨nonce, challengeMessage nonce w, t0⟩ := by
    unfold nonceHandler
    simp [hw, hvalid]
  have hget : nsGet (nonceHandler isValidKey nonce t0 ns w).1 w =
      some ⟨nonce, challengeMessage nonce w, t0⟩ := by
    rw [hns1]; exact nsGet_nsSet_self ns w _
  have hnotexp : ¬ (t1 - t0 > 5 * 60 * 1000) := by omega
  have hstep : verifyHandler verify t1 s
      (nonceHandler isValidKey nonce t0 ns w).1 w sig username =
      (match getUserByWallet s w with
       | some user => (s, nsDelete (nonceHandler isValidKey nonce t0 ns w).1 w,
           VerifyResult.success user)
       | none =>
           ((createUser s w (username.getD (defaultDisplayName w))).1,
            nsDelete (nonceHandler isValidKey nonce t0 ns w).1 w,
            VerifyResult.success (createUser s w (username.getD (defaultDisplayName w))).2)) := by
    unfold verifyHandler
    rw [hget]
    simp only [hw, hsig, Bool.or_self, Bool.false_eq_true, if_false]
    simp [hnotexp, hgood]
  have hdel : nsGet (nsDelete (nonceHandler isValidKey nonce t0 ns w).1 w) w = none :=
    nsGet_nsDelete_self _ w
  have hgone : nsGet (verifyHandler verify t1 s
      (nonceHandler isValidKey nonce t0 ns w).1 w sig username).2.1 w = none := by
    rw [hstep]
    cases hu : getUserByWallet s w with
    | some user => simpa [hu] using hdel
    | none => simpa [hu] using hdel
  refine ⟨?_, hgone, ?_⟩
  · rw [hstep]
    cases hu : getUserByWallet s w with
    | some user => exact ⟨user, by simp [hu]⟩
    | none =>
      exact ⟨(createUser s w (username.getD (defaultDisplayName w))).2, by simp [hu]⟩
  · intro t2 sig2 un2 s2 hsig2
    exact verifyHandler_of_nsGet_none verify t2 s2 _ w sig2 un2 hw hsig2 hgone

/-- Witness for C2 at a concrete instance. -/
theorem verify_after_nonce_single_use_witness :
    (∃ u, (verifyHandler (fun _ _ _ => true) 0 (⟨[], [], [], [], [], 1, 1, 1, 1⟩ : Store)
        (nonceHandler (fun _ => true) "abc" 0 [] "wallet1").1 "wallet1" "sig" none).2.2 =
          VerifyResult.success u)
    ∧ nsGet (verifyHandler (fun _ _ _ => true) 0 (⟨[], [], [], [], [], 1, 1, 1, 1⟩ : Store)
        (nonceHandler (fun _ => true) "abc" 0 [] "wallet1").1 "wallet1" "sig" none).2.1 "wallet1" = none
    ∧ (∀ (t2 : Nat) (sig2 : String) (un2 : Option String) (s2 : Store),
        sig2.isEmpty = false →
        verifyHandler (fun _ _ _ => true) t2 s2
          (verifyHandler (fun _ _ _ => true) 0 (⟨[], [], [], [], [], 1, 1, 1, 1⟩ : Store)
            (nonceHandler (fun _ => true) "abc" 0 [] "wallet1").1 "wallet1" "sig" none).2.1
          "wallet1" sig2 un2 =
        (s2, (verifyHandler (fun _ _ _ => true) 0 (⟨[], [], [], [], [], 1, 1, 1, 1⟩ : Store)
            (nonceHandler (fun _ => true) "abc" 0 [] "wallet1").1 "wallet1" "sig" none).2.1,
          VerifyResult.challengeNotFound)) :=
  verify_after_nonce_single_use (fun _ => true) (fun _ _ _ => true)
    "abc" "wallet1" "sig" 0 0 (⟨[], [], [], [], [], 1, 1, 1, 1⟩ : Store) [] none
    rfl rfl rfl rfl (by omega)

/-- C6: when the signature does not verify, VerifyResponse fails with
InvalidSignature and leaves both the store and the nonce store untouched, so
the stored challenge entry for the key is unchanged by the failed attempt. -/
theorem invalid_signature_preserves_challenge
    (verify : String → String → String → Bool) (now : Nat) (s : Store)
    (ns : NonceStore) (w sig : String) (username : Option String)
    (stored : NonceEntry)
    (hw : w.isEmpty = false) (hsig : sig.isEmpty = false)
    (hstored : nsGet ns w = some stored)
    (hfresh : ¬ (now - stored.timestamp > 5 * 60 * 1000))
    (hbad : verify stored.message sig w = false) :
    verifyHandler verify now s ns w sig username = (s, ns, VerifyResult.invalidSignature)
      ∧ nsGet ns w = some stored := by
  constructor
  · unfold verifyHandler
    rw [hstored]
    simp [hw, hsig, hfresh, hbad]
  · exact hstored

/-- Witness for C6 at a concrete instance. -/
theorem invalid_signature_preserves_challenge_witness :
    verifyHandler (fun _ _ _ => false) 0 (⟨[], [], [], [], [], 1, 1, 1, 1⟩ : Store)
        [("wallet1", ⟨"abc", "msg", 0⟩)] "wallet1" "sig" none =
      ((⟨[], [], [], [], [], 1, 1, 1, 1⟩ : Store), [("wallet1", ⟨"abc", "msg", 0⟩)],
        VerifyResult.invalidSignature)
      ∧ nsGet [("wallet1", ⟨"abc", "msg", 0⟩)] "wallet1" = some ⟨"abc", "msg", 0⟩ :=
  invalid_signature_preserves_challenge (fun _ _ _ => false) 0
    (⟨[], [], [], [], [], 1, 1, 1, 1⟩ : Store) [("wallet1", ⟨"abc", "msg", 0⟩)]
    "wallet1" "sig" none ⟨"abc", "msg", 0⟩ rfl rfl rfl (by decide) rfl

/-- C7: a VerifyResponse arriving more than 5 minutes after issuance fails
with ChallengeExpired even when the signature is correct, and the stored
challenge is evicted on this path. -/
theorem expired_challenge_evicted
    (verify : String → String → String → Bool) (now : Nat) (s : Store)
    (ns : NonceStore) (w sig : String) (username : Option String)
    (stored : NonceEntry)
    (hw : w.isEmpty = false) (hsig : sig.isEmpty = false)
    (hstored : nsGet ns w = some stored)
    (hexp : now - stored.timestamp > 5 * 60 * 1000)
    (hgood : verify stored.message sig w = true) :
    verifyHandler verify now s ns w sig username =
      (s, nsDelete ns w, VerifyResult.challengeExpired)
    ∧ nsGet (nsDelete ns w) w = none := by
  constructor
  · unfold verifyHandler
    rw [hstored]
    simp [hw, hsig, hexp]
  · exact nsGet_nsDelete_self ns w

/-- Witness for C7 at a concrete instance. -/
theorem expired_challenge_evicted_witness :
    verifyHandler (fun _ _ _ => true) 600000 (⟨[], [], [], [], [], 1, 1, 1, 1⟩ : Store)
        [("wallet1", ⟨"abc", "msg", 0⟩)] "wallet1" "sig" none =
      ((⟨[], [], [], [], [], 1, 1, 1, 1⟩ : Store),
        nsDelete [("wallet1", ⟨"abc", "msg", 0⟩)] "wallet1",
        VerifyResult.challengeExpired)
    ∧ nsGet (nsDelete [("wallet1", ⟨"abc", "msg", 0⟩)] "wallet1") "wallet1" = none :=
  expired_challenge_evicted (fun _ _ _ => true) 600000
    (⟨[], [], [], [], [], 1, 1, 1, 1⟩ : Store) [("wallet1", ⟨"abc", "msg", 0⟩)]
    "wallet1" "sig" none ⟨"abc", "msg", 0⟩ rfl rfl rfl (by decide) rfl

/-- C1 (code bug): the sweep deletes exactly the messages whose expiry is
non-null and ≤ now, but the storage routine returns only a count and the
60-second background job emits no event at all — in particular no
message_deleted event reaches any room, although API_DOCS.md and
ARCHITECTURE.md document that event.  Evaluated at a concrete store holding
one expired message: the row is deleted, the count is returned, and the
emitted event list is empty. -/
theorem sweep_deletes_but_emits_nothing :
    (∀ (s : Store) (now : Nat), (sweepTick s now).2 = [])
    ∧ (∀ (s : Store) (now : Nat) (m : Message),
        m ∈ (deleteExpiredMessages s now).1.messages ↔
          m ∈ s.messages ∧ isExpired now m = false)
    ∧ (sweepTick ⟨[], [], [], [⟨1, 1, 1, "hi", 0, some 1000⟩], [], 1, 1, 2, 1⟩
        2000).1.messages = []
    ∧ (deleteExpiredMessages ⟨[], [], [], [⟨1, 1, 1, "hi", 0, some 1000⟩], [], 1, 1, 2, 1⟩
        2000).2 = 1
    ∧ (sweepTick ⟨[], [], [], [⟨1, 1, 1, "hi", 0, some 1000⟩], [], 1, 1, 2, 1⟩
        2000).2 = [] := by
  refine ⟨fun s now => rfl, fun s now m => ?_, by decide, by decide, rfl⟩
  unfold deleteExpiredMessages
  simp [List.mem_filter]

/-- C3 counterexample: the typing handler on an unbound connection emits no
event at all — in particular it does not fail with the NotAuthenticated error
that the other room-scoped handlers emit. -/
theorem typing_unbound_no_error :
    (typingHandler ⟨⟨[], [], [], [], [], 1, 1, 1, 1⟩, []⟩ 7 3).2 = []
    ∧ Event.errorEvt 7 "Not authenticated" ∉
        (typingHandler ⟨⟨[], [], [], [], [], 1, 1, 1, 1⟩, []⟩ 7 3).2 := by
  constructor
  · rfl
  · intro h
    simp [typingHandler, lookupSocket] at h

/-- C3 (amended): on a connection with no user binding, join_room,
send_message, add_reaction and remove_reaction fail with a NotAuthenticated
error and change nothing, while typing (and stop_typing) also change nothing
but are silently ignored without emitting any error event. -/
theorem unbound_operations_rejected
    (st : RelayState) (sock roomId messageId : Nat)
    (content emoji : String) (expiresAt : Option Nat) (now : Nat)
    (h : lookupSocket st.socketToUser sock = none) :
    joinRoomHandler st sock roomId = (st, [Event.errorEvt sock "Not authenticated"])
    ∧ sendMessageHandler st sock roomId content expiresAt now =
        (st, [Event.errorEvt sock "Not authenticated"])
    ∧ addReactionHandler st sock messageId roomId emoji =
        (st, [Event.errorEvt sock "Not authenticated"])
    ∧ removeReactionHandler st sock messageId roomId emoji =
        (st, [Event.errorEvt sock "Not authenticated"])
    ∧ typingHandler st sock roomId = (st, [])
    ∧ stopTypingHandler st sock roomId = (st, []) := by
  refine ⟨?_, ?_, ?_, ?_, ?_, ?_⟩
  · unfold joinRoomHandler; rw [h]
  · unfold sendMessageHandler; rw [h]
  · unfold addReactionHandler; rw [h]
  · unfold removeReactionHandler; rw [h]
  · unfold typingHandler; rw [h]
  · unfold stopTypingHandler; rw [h]

/-- Witness for the amended C3 at a concrete unbound connection. -/
theorem unbound_operations_rejected_witness :
    joinRoomHandler ⟨⟨[], [], [], [], [], 1, 1, 1, 1⟩, []⟩ 7 3 =
        (⟨⟨[], [], [], [], [], 1, 1, 1, 1⟩, []⟩, [Event.errorEvt 7 "Not authenticated"])
    ∧ sendMessageHandler ⟨⟨[], [], [], [], [], 1, 1, 1, 1⟩, []⟩ 7 3 "hello" none 0 =
        (⟨⟨[], [], [], [], [], 1, 1, 1, 1⟩, []⟩, [Event.errorEvt 7 "Not authenticated"])
    ∧ addReactionHandler ⟨⟨[], [], [], [], [], 1, 1, 1, 1⟩, []⟩ 7 5 3 "x" =
        (⟨⟨[], [], [], [], [], 1, 1, 1, 1⟩, []⟩, [Event.errorEvt 7 "Not authenticated"])
    ∧ removeReactionHandler ⟨⟨[], [], [], [], [], 1, 1, 1, 1⟩, []⟩ 7 5 3 "x" =
        (⟨⟨[], [], [], [], [], 1, 1, 1, 1⟩, []⟩, [Event.errorEvt 7 "Not authenticated"])
    ∧ typingHandler ⟨⟨[], [], [], [], [], 1, 1, 1, 1⟩, []⟩ 7 3 =
        (⟨⟨[], [], [], [], [], 1, 1, 1, 1⟩, []⟩, [])
    ∧ stopTypingHandler ⟨⟨[], [], [], [], [], 1, 1, 1, 1⟩, []⟩ 7 3 =
        (⟨⟨[], [], [], [], [], 1, 1, 1, 1⟩, []⟩, []) :=
  unbound_operations_rejected ⟨⟨[], [], [], [], [], 1, 1, 1, 1⟩, []⟩ 7 3 5 "hello" "x"
    none 0 rfl

/-- C5: posting into a room the bound user is not a member of fails with the
NotAMember error and leaves the whole relay state (hence the message table)
untouched; posting as a member persists exactly one new row carrying the
server-assigned serial id and creation timestamp, which is broadcast. -/
theorem post_message_membership_gate
    (st : RelayState) (sock u roomId : Nat) (content : String)
    (expiresAt : Option Nat) (now : Nat)
    (hbound : lookupSocket st.socketToUser sock = some u) :
    (isRoomMember st.store roomId u = false →
      sendMessageHandler st sock roomId content expiresAt now =
        (st, [Event.errorEvt sock "Not a member of this room"]))
    ∧ (∀ user, isRoomMember st.store roomId u = true →
        getUser (createMessage st.store roomId u content now expiresAt).1 u = some user →
        sendMessageHandler st sock roomId content expiresAt now =
          ({ st with store := (createMessage st.store roomId u content now expiresAt).1 },
           [Event.newMessage roomId
             (createMessage st.store roomId u content now expiresAt).2 user.username])
        ∧ (createMessage st.store roomId u content now expiresAt).2.id =
            st.store.nextMessageId
        ∧ (createMessage st.store roomId u content now expiresAt).2.createdAt = now
        ∧ (createMessage st.store roomId u content now expiresAt).1.messages =
            st.store.messages ++ [(createMessage st.store roomId u content now expiresAt).2]) := by
  constructor
  · intro hnm
    unfold sendMessageHandler
    rw [hbound]
    simp [hnm]
  · intro user hm hgetu
    refine ⟨?_, rfl, rfl, rfl⟩
    unfold sendMessageHandler
    rw [hbound]
    simp only [hm, Bool.not_true, Bool.false_eq_true, if_false]
    rw [hgetu]

/-- Witness for C5 at a concrete member posting a message. -/
theorem post_message_membership_gate_witness :
    (isRoomMember (⟨[⟨1, "alice", "w1"⟩], [], [⟨1, 1⟩], [], [], 2, 1, 1, 1⟩ : Store) 1 1 = false →
      sendMessageHandler ⟨⟨[⟨1, "alice", "w1"⟩], [], [⟨1, 1⟩], [], [], 2, 1, 1, 1⟩, [(7, 1)]⟩
          7 1 "hello" none 5 =
        (⟨⟨[⟨1, "alice", "w1"⟩], [], [⟨1, 1⟩], [], [], 2, 1, 1, 1⟩, [(7, 1)]⟩,
         [Event.errorEvt 7 "Not a member of this room"]))
    ∧ (∀ user, isRoomMember (⟨[⟨1, "alice", "w1"⟩], [], [⟨1, 1⟩], [], [], 2, 1, 1, 1⟩ : Store) 1 1 = true →
        getUser (createMessage (⟨[⟨1, "alice", "w1"⟩], [], [⟨1, 1⟩], [], [], 2, 1, 1, 1⟩ : Store)
            1 1 "hello" 5 none).1 1 = some user →
        sendMessageHandler ⟨⟨[⟨1, "alice", "w1"⟩], [], [⟨1, 1⟩], [], [], 2, 1, 1, 1⟩, [(7, 1)]⟩
            7 1 "hello" none 5 =
          ((⟨(createMessage (⟨[⟨1, "alice", "w1"⟩], [], [⟨1, 1⟩], [], [], 2, 1, 1, 1⟩ : Store)
                1 1 "hello" 5 none).1, [(7, 1)]⟩ : RelayState),
           [Event.newMessage 1
             (createMessage (⟨[⟨1, "alice", "w1"⟩], [], [⟨1, 1⟩], [], [], 2, 1, 1, 1⟩ : Store)
               1 1 "hello" 5 none).2 user.username])
        ∧ (createMessage (⟨[⟨1, "alice", "w1"⟩], [], [⟨1, 1⟩], [], [], 2, 1, 1, 1⟩ : Store)
            1 1 "hello" 5 none).2.id = 1
        ∧ (createMessage (⟨[⟨1, "alice", "w1"⟩], [], [⟨1, 1⟩], [], [], 2, 1, 1, 1⟩ : Store)
            1 1 "hello" 5 none).2.createdAt = 5
        ∧ (createMessage (⟨[⟨1, "alice", "w1"⟩], [], [⟨1, 1⟩], [], [], 2, 1, 1, 1⟩ : Store)
            1 1 "hello" 5 none).1.messages =
            [] ++ [(createMessage (⟨[⟨1, "alice", "w1"⟩], [], [⟨1, 1⟩], [], [], 2, 1, 1, 1⟩ : Store)
              1 1 "hello" 5 none).2]) :=
  post_message_membership_gate
    ⟨⟨[⟨1, "alice", "w1"⟩], [], [⟨1, 1⟩], [], [], 2, 1, 1, 1⟩, [(7, 1)]⟩ 7 1 1 "hello" none 5 rfl

/-- C9: with a bound connection, remove_reaction broadcasts reaction_removed
exactly when a matching reaction row existed, and on a non-existent reaction
the handler is a complete no-op: no event and an unchanged state. -/
theorem remove_reaction_broadcast_iff
    (st : RelayState) (sock u messageId roomId : Nat) (emoji : String)
    (hbound : lookupSocket st.socketToUser sock = some u) :
    ((removeReactionHandler st sock messageId roomId emoji).2 =
        [Event.reactionRemoved roomId messageId u emoji]
      ↔ ∃ r ∈ st.store.reactions,
          (r.messageId == messageId && r.userId == u && r.emoji == emoji) = true)
    ∧ ((¬ ∃ r ∈ st.store.reactions,
          (r.messageId == messageId && r.userId == u && r.emoji == emoji) = true) →
        removeReactionHandler st sock messageId roomId emoji = (st, [])) := by
  by_cases hP : ∃ r ∈ st.store.reactions,
      (r.messageId == messageId && r.userId == u && r.emoji == emoji) = true
  · rcases hP with ⟨r, hr, hpr⟩
    have hmemf : r ∈ st.store.reactions.filter
        (fun r => r.messageId == messageId && r.userId == u && r.emoji == emoji) :=
      List.mem_filter.mpr ⟨hr, hpr⟩
    have hpos : 0 < (st.store.reactions.filter
        (fun r => r.messageId == messageId && r.userId == u && r.emoji == emoji)).length :=
      List.length_pos.mpr (List.ne_nil_of_mem hmemf)
    have hremoved : (removeReaction st.store messageId u emoji).2 = true := by
      unfold removeReaction
      simpa using hpos
    constructor
    · constructor
      · intro _; exact ⟨r, hr, hpr⟩
      · intro _
        unfold removeReactionHandler
        rw [hbound]
        simp only [hremoved, if_true]
    · intro hcontra
      exact absurd ⟨r, hr, hpr⟩ hcontra
  · have hall : ∀ r ∈ st.store.reactions,
        (r.messageId == messageId && r.userId == u && r.emoji == emoji) = false := by
      intro r hr
      cases h : (r.messageId == messageId && r.userId == u && r.emoji == emoji) with
      | false => rfl
      | true => exact absurd ⟨r, hr, h⟩ hP
    have hfilnil : st.store.reactions.filter
        (fun r => r.messageId == messageId && r.userId == u && r.emoji == emoji) = [] := by
      rw [List.filter_eq_nil_iff]
      intro r hr
      simp [hall r hr]
    have hkept : st.store.reactions.filter
        (fun r => !(r.messageId == messageId && r.userId == u && r.emoji == emoji)) =
        st.store.reactions := by
      rw [List.filter_eq_self]
      intro r hr
      simp [hall r hr]
    have hremoved : removeReaction st.store messageId u emoji = (st.store, false) := by
      unfold removeReaction
      rw [hfilnil, hkept]
      simp
    have hrun : removeReactionHandler st sock messageId roomId emoji = (st, []) := by
      unfold removeReactionHandler
      rw [hbound]
      simp only [hremoved]
      rfl
    constructor
    · rw [hrun]
      constructor
      · intro h; cases h
      · intro h; exact absurd h hP
    · intro _; exact hrun

/-- Witness for C9 at a concrete store holding the matching reaction. -/
theorem remove_reaction_broadcast_iff_witness :
    ((removeReactionHandler
        ⟨⟨[], [], [], [], [⟨1, 5, 1, "x"⟩], 1, 1, 1, 2⟩, [(7, 1)]⟩ 7 5 3 "x").2 =
        [Event.reactionRemoved 3 5 1 "x"]
      ↔ ∃ r ∈ [(⟨1, 5, 1, "x"⟩ : Reaction)],
          (r.messageId == 5 && r.userId == 1 && r.emoji == "x") = true)
    ∧ ((¬ ∃ r ∈ [(⟨1, 5, 1, "x"⟩ : Reaction)],
          (r.messageId == 5 && r.userId == 1 && r.emoji == "x") = true) →
        removeReactionHandler
          ⟨⟨[], [], [], [], [⟨1, 5, 1, "x"⟩], 1, 1, 1, 2⟩, [(7, 1)]⟩ 7 5 3 "x" =
        (⟨⟨[], [], [], [], [⟨1, 5, 1, "x"⟩], 1, 1, 1, 2⟩, [(7, 1)]⟩, [])) :=
  remove_reaction_broadcast_iff
    ⟨⟨[], [], [], [], [⟨1, 5, 1, "x"⟩], 1, 1, 1, 2⟩, [(7, 1)]⟩ 7 1 5 3 "x" rfl

/-- Number of stored reaction rows for a (message, user, emoji) triple. -/
def reactionCount (s : Store) (messageId userId : Nat) (emoji : String) : Nat :=
  (s.reactions.filter
    (fun r => r.messageId == messageId && r.userId == userId && r.emoji == emoji)).length

/-- The reaction-uniqueness invariant: at most one row per triple. -/
def ReactionInvariant (s : Store) : Prop :=
  ∀ (messageId userId : Nat) (emoji : String), reactionCount s messageId userId emoji ≤ 1

lemma reactionCount_addReaction_self (s : Store) (m u : Nat) (e : String) :
    reactionCount (addReaction s m u e).1 m u e = max (reactionCount s m u e) 1 := by
  unfold addReaction
  cases hf : s.reactions.find?
      (fun r => r.messageId == m && r.userId == u && r.emoji == e) with
  | none =>
    have hzero : (s.reactions.filter
        (fun r => r.messageId == m && r.userId == u && r.emoji == e)).length = 0 := by
      rw [List.find?_eq_none] at hf
      rw [List.filter_eq_nil_iff.mpr hf]
      rfl
    unfold reactionCount
    simp only []
    rw [List.filter_append, List.length_append, hzero]
    simp
  | some r =>
    have hmem : r ∈ s.reactions := List.mem_of_find?_eq_some hf
    have hpr := List.find?_some hf
    have hpos : 0 < reactionCount s m u e := by
      unfold reactionCount
      exact List.length_pos.mpr (List.ne_nil_of_mem (List.mem_filter.mpr ⟨hmem, hpr⟩))
    simp only []
    omega

lemma reactionCount_addReaction_other (s : Store) (m u : Nat) (e : String)
    (m' u' : Nat) (e' : String) (hne : ¬(m = m' ∧ u = u' ∧ e = e')) :
    reactionCount (addReaction s m u e).1 m' u' e' = reactionCount s m' u' e' := by
  unfold addReaction
  cases hf : s.reactions.find?
      (fun r => r.messageId == m && r.userId == u && r.emoji == e) with
  | none =>
    unfold reactionCount
    simp only []
    rw [List.filter_append, List.length_append]
    have hnew : ((⟨s.nextReactionId, m, u, e⟩ : Reaction).messageId == m' &&
        (⟨s.nextReactionId, m, u, e⟩ : Reaction).userId == u' &&
        (⟨s.nextReactionId, m, u, e⟩ : Reaction).emoji == e') = false := by
      simp only [Bool.and_eq_false_iff]
      by_cases h1 : m = m'
      · by_cases h2 : u = u'
        · have h3 : e ≠ e' := fun h => hne ⟨h1, h2, h⟩
          right
          simpa using h3
        · left; right; simpa using h2
      · left; left; simpa using h1
    simp [hnew]
  | some r =>
    rfl

lemma addReaction_preserves_invariant (s : Store) (m u : Nat) (e : String)
    (hinv : ReactionInvariant s) : ReactionInvariant (addReaction s m u e).1 := by
  intro m' u' e'
  by_cases heq : m = m' ∧ u = u' ∧ e = e'
  · rcases heq with ⟨h1, h2, h3⟩
    subst h1; subst h2; subst h3
    rw [reactionCount_addReaction_self]
    have := hinv m u e
    omega
  · rw [reactionCount_addReaction_other s m u e m' u' e' heq]
    exact hinv m' u' e'

/-- C8: AddReaction is idempotent — starting from any state respecting the
per-triple uniqueness invariant, two identical calls leave exactly one row for
the triple — and every sequence of AddReaction calls preserves the invariant
that at most one reaction row exists per (message, user, emoji) triple. -/
theorem add_reaction_idempotent :
    (∀ (s : Store) (m u : Nat) (e : String), reactionCount s m u e ≤ 1 →
      reactionCount (addReaction (addReaction s m u e).1 m u e).1 m u e = 1)
    ∧ (∀ (s : Store) (calls : List (Nat × Nat × String)), ReactionInvariant s →
        ReactionInvariant
          (calls.foldl (fun acc c => (addReaction acc c.1 c.2.1 c.2.2).1) s)) := by
  constructor
  · intro s m u e hle
    rw [reactionCount_addReaction_self, reactionCount_addReaction_self]
    omega
  · intro s calls
    induction calls generalizing s with
    | nil => intro h; exact h
    | cons c rest ih =>
      intro h
      exact ih _ (addReaction_preserves_invariant s c.1 c.2.1 c.2.2 h)

/-- Witness for C8 at a concrete empty store and a two-call sequence. -/
theorem add_reaction_idempotent_witness :
    reactionCount (addReaction (addReaction (⟨[], [], [], [], [], 1, 1, 1, 1⟩ : Store)
        5 1 "x").1 5 1 "x").1 5 1 "x" = 1
    ∧ ReactionInvariant
        ([(5, 1, "x"), (5, 1, "x")].foldl
          (fun acc c => (addReaction acc c.1 c.2.1 c.2.2).1)
          (⟨[], [], [], [], [], 1, 1, 1, 1⟩ : Store)) :=
  ⟨add_reaction_idempotent.1 (⟨[], [], [], [], [], 1, 1, 1, 1⟩ : Store) 5 1 "x"
      (by decide),
   add_reaction_idempotent.2 (⟨[], [], [], [], [], 1, 1, 1, 1⟩ : Store)
      [(5, 1, "x"), (5, 1, "x")]
      (fun m u e => by simp [reactionCount])⟩

lemma createdAtDesc_trans (a b c : Message) (hab : createdAtDesc a b = true)
    (hbc : createdAtDesc b c = true) : createdAtDesc a c = true := by
  unfold createdAtDesc at *
  simp only [decide_eq_true_eq] at *
  omega

lemma createdAtDesc_total (a b : Message) :
    (createdAtDesc a b || createdAtDesc b a) = true := by
  unfold createdAtDesc
  rcases Nat.le_total a.createdAt b.createdAt with h | h <;> simp [h]

/-- C10: with a bound user and an existing room, the room_joined payload's
message list is exactly the storage listing with the default limit of 50 (the
relay passes no limit); that list holds at most 50 messages of the room, in
oldest-first order, and every room message left out of it is no newer than
every message in it. -/
theorem room_history_default_limit
    (st : RelayState) (sock u roomId : Nat) (room : Room)
    (hbound : lookupSocket st.socketToUser sock = some u)
    (hroom : getRoom st.store roomId = some room) :
    (∃ members reacts rest,
      (joinRoomHandler st sock roomId).2 =
        Event.roomJoined sock room members (getRoomMessages st.store roomId 50) reacts :: rest)
    ∧ getRoomMessages st.store roomId 50 = getRoomMessages st.store roomId
    ∧ (getRoomMessages st.store roomId 50).length ≤ 50
    ∧ List.Pairwise (fun a b => a.createdAt ≤ b.createdAt)
        (getRoomMessages st.store roomId 50)
    ∧ (∀ m ∈ getRoomMessages st.store roomId 50,
        m ∈ st.store.messages ∧ m.roomId = roomId)
    ∧ (∀ m ∈ getRoomMessages st.store roomId 50, ∀ m' ∈ st.store.messages,
        m'.roomId = roomId → m' ∉ getRoomMessages st.store roomId 50 →
        m'.createdAt ≤ m.createdAt) := by
  have hsorted : List.Pairwise (fun a b => createdAtDesc a b = true)
      ((st.store.messages.filter (fun m => m.roomId == roomId)).mergeSort createdAtDesc) :=
    List.sorted_mergeSort createdAtDesc_trans createdAtDesc_total _
  refine ⟨?_, rfl, ?_, ?_, ?_, ?_⟩
  · unfold joinRoomHandler
    rw [hbound, hroom]
    by_cases hm : isRoomMember st.store roomId u = true
    · simp only [hm, if_true]
      exact ⟨_, _, _, rfl⟩
    · simp only [hm, if_false]
      exact ⟨_, _, _, rfl⟩
  · unfold getRoomMessages
    rw [List.length_reverse, List.length_take]
    omega
  · unfold getRoomMessages
    rw [List.pairwise_reverse]
    have htake := List.Pairwise.sublist
      (List.take_sublist 50
        ((st.store.messages.filter (fun m => m.roomId == roomId)).mergeSort createdAtDesc))
      hsorted
    exact htake.imp (fun h => by
      unfold createdAtDesc at h
      exact of_decide_eq_true h)
  · intro m hmem
    unfold getRoomMessages at hmem
    rw [List.mem_reverse] at hmem
    have hms := List.mem_mergeSort.mp (List.take_subset 50 _ hmem)
    rcases List.mem_filter.mp hms with ⟨hmm, hrb⟩
    exact ⟨hmm, by simpa using hrb⟩
  · intro m hmem m' hm' hroom' hnotin
    unfold getRoomMessages at hmem hnotin
    rw [List.mem_reverse] at hmem
    rw [List.mem_reverse] at hnotin
    have hm'sorted : m' ∈
        ((st.store.messages.filter (fun m => m.roomId == roomId)).mergeSort createdAtDesc) :=
      List.mem_mergeSort.mpr (List.mem_filter.mpr ⟨hm', by simpa using hroom'⟩)
    have hsplit : List.Pairwise (fun a b => createdAtDesc a b = true)
        (List.take 50 ((st.store.messages.filter (fun m => m.roomId == roomId)).mergeSort createdAtDesc)
          ++ List.drop 50 ((st.store.messages.filter (fun m => m.roomId == roomId)).mergeSort createdAtDesc)) := by
      rw [List.take_append_drop]
      exact hsorted
    rcases List.pairwise_append.mp hsplit with ⟨_, _, hcross⟩
    have hm'union : m' ∈
        List.take 50 ((st.store.messages.filter (fun m => m.roomId == roomId)).mergeSort createdAtDesc)
          ++ List.drop 50 ((st.store.messages.filter (fun m => m.roomId == roomId)).mergeSort createdAtDesc) := by
      rw [List.take_append_drop]
      exact hm'sorted
    have hm'drop : m' ∈
        List.drop 50 ((st.store.messages.filter (fun m => m.roomId == roomId)).mergeSort createdAtDesc) := by
      rcases List.mem_append.mp hm'union with h | h
      · exact absurd h hnotin
      · exact h
    have := hcross m hmem m' hm'drop
    unfold createdAtDesc at this
    exact of_decide_eq_true this

/-- Witness for C10 at a concrete bound user and existing room. -/
theorem room_history_default_limit_witness :
    (∃ members reacts rest,
      (joinRoomHandler ⟨⟨[⟨1, "alice", "w1"⟩], [⟨1, "general", false, false, none⟩],
          [⟨1, 1⟩], [⟨1, 1, 1, "hi", 10, none⟩], [], 2, 2, 2, 1⟩, [(7, 1)]⟩ 7 1).2 =
        Event.roomJoined 7 ⟨1, "general", false, false, none⟩ members
          (getRoomMessages ⟨[⟨1, "alice", "w1"⟩], [⟨1, "general", false, false, none⟩],
            [⟨1, 1⟩], [⟨1, 1, 1, "hi", 10, none⟩], [], 2, 2, 2, 1⟩ 1 50) reacts :: rest)
    ∧ getRoomMessages (⟨[⟨1, "alice", "w1"⟩], [⟨1, "general", false, false, none⟩],
        [⟨1, 1⟩], [⟨1, 1, 1, "hi", 10, none⟩], [], 2, 2, 2, 1⟩ : Store) 1 50 =
      getRoomMessages (⟨[⟨1, "alice", "w1"⟩], [⟨1, "general", false, false, none⟩],
        [⟨1, 1⟩], [⟨1, 1, 1, "hi", 10, none⟩], [], 2, 2, 2, 1⟩ : Store) 1
    ∧ (getRoomMessages (⟨[⟨1, "alice", "w1"⟩], [⟨1, "general", false, false, none⟩],
        [⟨1, 1⟩], [⟨1, 1, 1, "hi", 10, none⟩], [], 2, 2, 2, 1⟩ : Store) 1 50).length ≤ 50
    ∧ List.Pairwise (fun a b => a.createdAt ≤ b.createdAt)
        (getRoomMessages (⟨[⟨1, "alice", "w1"⟩], [⟨1, "general", false, false, none⟩],
          [⟨1, 1⟩], [⟨1, 1, 1, "hi", 10, none⟩], [], 2, 2, 2, 1⟩ : Store) 1 50)
    ∧ (∀ m ∈ getRoomMessages (⟨[⟨1, "alice", "w1"⟩], [⟨1, "general", false, false, none⟩],
          [⟨1, 1⟩], [⟨1, 1, 1, "hi", 10, none⟩], [], 2, 2, 2, 1⟩ : Store) 1 50,
        m ∈ [(⟨1, 1, 1, "hi", 10, none⟩ : Message)] ∧ m.roomId = 1)
    ∧ (∀ m ∈ getRoomMessages (⟨[⟨1, "alice", "w1"⟩], [⟨1, "general", false, false, none⟩],
          [⟨1, 1⟩], [⟨1, 1, 1, "hi", 10, none⟩], [], 2, 2, 2, 1⟩ : Store) 1 50,
        ∀ m' ∈ [(⟨1, 1, 1, "hi", 10, none⟩ : Message)],
        m'.roomId = 1 →
        m' ∉ getRoomMessages (⟨[⟨1, "alice", "w1"⟩], [⟨1, "general", false, false, none⟩],
          [⟨1, 1⟩], [⟨1, 1, 1, "hi", 10, none⟩], [], 2, 2, 2, 1⟩ : Store) 1 50 →
        m'.createdAt ≤ m.createdAt) :=
  room_history_default_limit
    ⟨⟨[⟨1, "alice", "w1"⟩], [⟨1, "general", false, false, none⟩],
      [⟨1, 1⟩], [⟨1, 1, 1, "hi", 10, none⟩], [], 2, 2, 2, 1⟩, [(7, 1)]⟩
    7 1 1 ⟨1, "general", false, false, none⟩ rfl rfl

/-- Referential bound used by the pairwise-room argument: every room id and
every membership's room reference is below the next serial room id. -/
def RoomIdsBounded (s : Store) : Prop :=
  (∀ r ∈ s.rooms, r.id < s.nextRoomId) ∧ (∀ mb ∈ s.roomMembers, mb.roomId < s.nextRoomId)

lemma findPrivateRoom_some_spec (s : Store) (a b : Nat) (r : Room)
    (h : findPrivateRoom s a b = some r) :
    r ∈ s.rooms ∧ r.isGroup = false ∧ r.isPublic = false ∧
    isRoomMember s r.id a = true ∧ isRoomMember s r.id b = true := by
  unfold findPrivateRoom at h
  have hmemb : isRoomMember s r.id b = true := by
    have := List.find?_some h
    simpa using this
  have hmem := List.mem_of_find?_eq_some h
  rcases List.mem_filter.mp hmem with ⟨hjr, hflags⟩
  rw [Bool.and_eq_true] at hflags
  rcases hflags with ⟨hg, hp⟩
  have hgroup : r.isGroup = false := by simpa using hg
  have hpublic : r.isPublic = false := by simpa using hp
  unfold joinedRooms at hjr
  rcases List.mem_flatMap.mp hjr with ⟨mb, hmb, hrin⟩
  rcases List.mem_filter.mp hmb with ⟨hmbmem, hmbu⟩
  rcases List.mem_filter.mp hrin with ⟨hrrooms, hrid⟩
  have hida : isRoomMember s r.id a = true := by
    unfold isRoomMember
    rw [List.any_eq_true]
    refine ⟨mb, hmbmem, ?_⟩
    rw [Bool.and_eq_true]
    exact ⟨beq_iff_eq.mpr (beq_iff_eq.mp hrid).symm, hmbu⟩
  exact ⟨hrrooms, hgroup, hpublic, hida, hmemb⟩

lemma findPrivateRoom_none_iff (s : Store) (a b : Nat) :
    findPrivateRoom s a b = none ↔
      ∀ r ∈ s.rooms, r.isGroup = false → r.isPublic = false →
        isRoomMember s r.id a = true → isRoomMember s r.id b = true → False := by
  constructor
  · intro h r hr hg hp hma hmb
    unfold findPrivateRoom at h
    rw [List.find?_eq_none] at h
    unfold isRoomMember at hma
    rw [List.any_eq_true] at hma
    rcases hma with ⟨mb, hmbmem, hmbp⟩
    rw [Bool.and_eq_true] at hmbp
    rcases hmbp with ⟨hmbr, hmbu⟩
    have hrj : r ∈ joinedRooms s a := by
      unfold joinedRooms
      rw [List.mem_flatMap]
      exact ⟨mb, List.mem_filter.mpr ⟨hmbmem, hmbu⟩,
        List.mem_filter.mpr ⟨hr, beq_iff_eq.mpr (beq_iff_eq.mp hmbr).symm⟩⟩
    have hcand : r ∈ (joinedRooms s a).filter (fun r => !r.isGroup && !r.isPublic) :=
      List.mem_filter.mpr ⟨hrj, by simp [hg, hp]⟩
    exact (h r hcand) hmb
  · intro h
    cases hf : findPrivateRoom s a b with
    | none => rfl
    | some r =>
      rcases findPrivateRoom_some_spec s a b r hf with ⟨h1, h2, h3, h4, h5⟩
      exact (h r h1 h2 h3 h4 h5).elim

lemma findPrivateRoom_after_create
    (s : Store) (u1 u2 : Nat) (name : String) (cb : Option Nat)
    (hWF : RoomIdsBounded s)
    (hnone : findPrivateRoom s u1 u2 = none) :
    findPrivateRoom
      (⟨s.users, s.rooms ++ [⟨s.nextRoomId, name, false, false, cb⟩],
        (s.roomMembers ++ [⟨s.nextRoomId, u1⟩]) ++ [⟨s.nextRoomId, u2⟩],
        s.messages, s.reactions, s.nextUserId, s.nextRoomId + 1,
        s.nextMessageId, s.nextReactionId⟩ : Store) u1 u2 =
      some ⟨s.nextRoomId, name, false, false, cb⟩ := by
  have hmemNew1 : isRoomMember
      (⟨s.users, s.rooms ++ [⟨s.nextRoomId, name, false, false, cb⟩],
        (s.roomMembers ++ [⟨s.nextRoomId, u1⟩]) ++ [⟨s.nextRoomId, u2⟩],
        s.messages, s.reactions, s.nextUserId, s.nextRoomId + 1,
        s.nextMessageId, s.nextReactionId⟩ : Store) s.nextRoomId u1 = true := by
    unfold isRoomMember
    rw [List.any_eq_true]
    exact ⟨(⟨s.nextRoomId, u1⟩ : RoomMember), by simp, by simp⟩
  have hmemNew2 : isRoomMember
      (⟨s.users, s.rooms ++ [⟨s.nextRoomId, name, false, false, cb⟩],
        (s.roomMembers ++ [⟨s.nextRoomId, u1⟩]) ++ [⟨s.nextRoomId, u2⟩],
        s.messages, s.reactions, s.nextUserId, s.nextRoomId + 1,
        s.nextMessageId, s.nextReactionId⟩ : Store) s.nextRoomId u2 = true := by
    unfold isRoomMember
    rw [List.any_eq_true]
    exact ⟨(⟨s.nextRoomId, u2⟩ : RoomMember), by simp, by simp⟩
  have hreduce : ∀ (rid u : Nat), rid ≠ s.nextRoomId →
      isRoomMember
        (⟨s.users, s.rooms ++ [⟨s.nextRoomId, name, false, false, cb⟩],
          (s.roomMembers ++ [⟨s.nextRoomId, u1⟩]) ++ [⟨s.nextRoomId, u2⟩],
          s.messages, s.reactions, s.nextUserId, s.nextRoomId + 1,
          s.nextMessageId, s.nextReactionId⟩ : Store) rid u = isRoomMember s rid u := by
    intro rid u hne
    unfold isRoomMember
    have hNr : (s.nextRoomId == rid) = false := by
      cases h : (s.nextRoomId == rid) with
      | false => rfl
      | true => exact absurd (beq_iff_eq.mp h) (fun e => hne e.symm)
    show ((s.roomMembers ++ ([⟨s.nextRoomId, u1⟩] : List RoomMember))
        ++ ([⟨s.nextRoomId, u2⟩] : List RoomMember)).any _ = _
    rw [List.any_append, List.any_append]
    simp [hNr]
  cases hf : findPrivateRoom
      (⟨s.users, s.rooms ++ [⟨s.nextRoomId, name, false, false, cb⟩],
        (s.roomMembers ++ [⟨s.nextRoomId, u1⟩]) ++ [⟨s.nextRoomId, u2⟩],
        s.messages, s.reactions, s.nextUserId, s.nextRoomId + 1,
        s.nextMessageId, s.nextReactionId⟩ : Store) u1 u2 with
  | none =>
    exfalso
    have hchar := (findPrivateRoom_none_iff _ u1 u2).mp hf
    exact hchar ⟨s.nextRoomId, name, false, false, cb⟩
      (by simp) rfl rfl hmemNew1 hmemNew2
  | some r =>
    rcases findPrivateRoom_some_spec _ u1 u2 r hf with ⟨hrmem, hg, hp, h1, h2⟩
    have hrmem' : r ∈ s.rooms ++ [⟨s.nextRoomId, name, false, false, cb⟩] := hrmem
    rcases List.mem_append.mp hrmem' with hold | hnew
    · exfalso
      have hlt := hWF.1 r hold
      have hne : r.id ≠ s.nextRoomId := by omega
      rw [hreduce r.id u1 hne] at h1
      rw [hreduce r.id u2 hne] at h2
      exact (findPrivateRoom_none_iff s u1 u2).mp hnone r hold hg hp h1 h2
    · have hr : r = ⟨s.nextRoomId, name, false, false, cb⟩ := by simpa using hnew
      rw [hr]

lemma createPrivateChatHandler_existing
    (st : RelayState) (sock u1 : Nat) (w : String) (rec : User) (room : Room)
    (hbound : lookupSocket st.socketToUser sock = some u1)
    (hrec : getUserByWallet st.store w = some rec)
    (hfound : findPrivateRoom st.store u1 rec.id = some room) :
    createPrivateChatHandler st sock w = (st, [Event.roomCreated sock room]) := by
  unfold createPrivateChatHandler
  rw [hbound]
  simp only [hrec, hfound]

/-- C4: findPrivateRoom returns only rooms that are non-group, non-public and
contain both users, and returns none exactly when no such room exists; as a
consequence, with no prior pairwise room two successive create_private_chat
calls by the same bound user towards the same existing recipient emit the same
room in room_created, the second call creating nothing and changing nothing. -/
theorem pairwise_room_unique
    (s0 : Store) (a b : Nat) (st : RelayState) (sock u1 : Nat) (w : String)
    (rec cu : User)
    (hWF : RoomIdsBounded st.store)
    (hbound : lookupSocket st.socketToUser sock = some u1)
    (hrec : getUserByWallet st.store w = some rec)
    (hcu : getUser st.store u1 = some cu)
    (hnone : findPrivateRoom st.store u1 rec.id = none) :
    (∀ r, findPrivateRoom s0 a b = some r →
        r ∈ s0.rooms ∧ r.isGroup = false ∧ r.isPublic = false ∧
        isRoomMember s0 r.id a = true ∧ isRoomMember s0 r.id b = true)
    ∧ (findPrivateRoom s0 a b = none ↔
        ∀ r ∈ s0.rooms, r.isGroup = false → r.isPublic = false →
          isRoomMember s0 r.id a = true → isRoomMember s0 r.id b = true → False)
    ∧ (∃ room : Room,
        (createPrivateChatHandler st sock w).2 = [Event.roomCreated sock room]
        ∧ createPrivateChatHandler (createPrivateChatHandler st sock w).1 sock w =
            ((createPrivateChatHandler st sock w).1, [Event.roomCreated sock room])) := by
  have hfirst : createPrivateChatHandler st sock w =
      ((⟨addRoomMember
          (addRoomMember
            (createRoom st.store (cu.username ++ " & " ++ rec.username) false false (some u1)).1
            (createRoom st.store (cu.username ++ " & " ++ rec.username) false false (some u1)).2.id
            u1)
          (createRoom st.store (cu.username ++ " & " ++ rec.username) false false (some u1)).2.id
          rec.id, st.socketToUser⟩ : RelayState),
       [Event.roomCreated sock
         (createRoom st.store (cu.username ++ " & " ++ rec.username) false false (some u1)).2]) := by
    unfold createPrivateChatHandler
    rw [hbound]
    simp only [hrec, hnone, hcu]
  have hkey := findPrivateRoom_after_create st.store u1 rec.id
    (cu.username ++ " & " ++ rec.username) (some u1) hWF hnone
  have hb1 : lookupSocket (createPrivateChatHandler st sock w).1.socketToUser sock =
      some u1 := by
    rw [hfirst]
    exact hbound
  have hr1 : getUserByWallet (createPrivateChatHandler st sock w).1.store w = some rec := by
    rw [hfirst]
    exact hrec
  have hf1 : findPrivateRoom (createPrivateChatHandler st sock w).1.store u1 rec.id =
      some (createRoom st.store (cu.username ++ " & " ++ rec.username) false false (some u1)).2 := by
    rw [hfirst]
    exact hkey
  refine ⟨fun r h => findPrivateRoom_some_spec s0 a b r h,
    findPrivateRoom_none_iff s0 a b,
    ⟨(createRoom st.store (cu.username ++ " & " ++ rec.username) false false (some u1)).2,
      ?_, ?_⟩⟩
  · rw [hfirst]
  · exact createPrivateChatHandler_existing _ sock u1 w rec _ hb1 hr1 hf1

/-- Witness for C4 at a concrete two-user store with no prior pairwise room. -/
theorem pairwise_room_unique_witness :
    (∀ r, findPrivateRoom (⟨[], [], [], [], [], 1, 1, 1, 1⟩ : Store) 1 2 = some r →
        r ∈ ([] : List Room) ∧ r.isGroup = false ∧ r.isPublic = false ∧
        isRoomMember (⟨[], [], [], [], [], 1, 1, 1, 1⟩ : Store) r.id 1 = true ∧
        isRoomMember (⟨[], [], [], [], [], 1, 1, 1, 1⟩ : Store) r.id 2 = true)
    ∧ (findPrivateRoom (⟨[], [], [], [], [], 1, 1, 1, 1⟩ : Store) 1 2 = none ↔
        ∀ r ∈ ([] : List Room), r.isGroup = false → r.isPublic = false →
          isRoomMember (⟨[], [], [], [], [], 1, 1, 1, 1⟩ : Store) r.id 1 = true →
          isRoomMember (⟨[], [], [], [], [], 1, 1, 1, 1⟩ : Store) r.id 2 = true → False)
    ∧ (∃ room : Room,
        (createPrivateChatHandler
          ⟨⟨[⟨1, "alice", "w1"⟩, ⟨2, "bob", "w2"⟩], [], [], [], [], 3, 1, 1, 1⟩, [(7, 1)]⟩
          7 "w2").2 = [Event.roomCreated 7 room]
        ∧ createPrivateChatHandler
            (createPrivateChatHandler
              ⟨⟨[⟨1, "alice", "w1"⟩, ⟨2, "bob", "w2"⟩], [], [], [], [], 3, 1, 1, 1⟩, [(7, 1)]⟩
              7 "w2").1 7 "w2" =
          ((createPrivateChatHandler
              ⟨⟨[⟨1, "alice", "w1"⟩, ⟨2, "bob", "w2"⟩], [], [], [], [], 3, 1, 1, 1⟩, [(7, 1)]⟩
              7 "w2").1, [Event.roomCreated 7 room])) :=
  pairwise_room_unique (⟨[], [], [], [], [], 1, 1, 1, 1⟩ : Store) 1 2
    ⟨⟨[⟨1, "alice", "w1"⟩, ⟨2, "bob", "w2"⟩], [], [], [], [], 3, 1, 1, 1⟩, [(7, 1)]⟩
    7 1 "w2" ⟨2, "bob", "w2"⟩ ⟨1, "alice", "w1"⟩
    ⟨by simp, by simp⟩ rfl rfl rfl rfl

end ZKontrol
